import Mathlib

/-!
Shallow embedding of the Win32 window shell in
`src/windows/runner/win32_window.cpp` / `win32_window.h`, together with
theorems settling the specification claims about it.

Conventions:
- machine integers (`int`, `LONG`) are modelled as `Int`; unsigned values
  that stay tiny (`UINT` DPI values, `HIWORD(wparam)`) as `Nat`;
- the `float dpi_scale_` field is modelled as `ℚ` (every value it can take
  is of the form `dpi / 96` with `dpi ≤ 65535`, so the `float` is always
  finite and the rational model is exact up to rounding that none of the
  proved properties depend on);
- fallible OS calls are modelled by environment records carrying their
  outcome, and side effects by traces of `WAction`s.
-/

/-- Win32Window::Size (win32_window.h, lines 20-24): `int width; int height`. -/
structure Size where
  width : Int
  height : Int
deriving DecidableEq, Repr

/-- Win32Window::Point (win32_window.h, lines 14-18). -/
structure Point where
  x : Int
  y : Int
deriving DecidableEq, Repr

/-- Side effects performed by the embedded member functions, recorded as a trace. -/
inductive WAction where
  | onDestroyHook
  | savePlacementCall
  | destroyWindowCall
  | postQuitCall
  | showWindowCmd (cmd : Nat)
  | attachThreadInputCall (attach : Bool)
  | setForegroundWindowCall
  | setWindowPosTopShowCall
  | dwmSetCornerCall
  | createRoundRectRgnCall (right bottom rw rh : Int)
  | setWindowRgnCall
  | deleteObjectCall
  | clearRegionCall
  | moveChildCall (w h : Int)
  | onResizeHook (w h : Int)
  | applyCornersCall (w h : Int)
  | updateThemeCall
  | restorePlacementCall
  | createWindowCall (x y w h : Int)
deriving DecidableEq, Repr

/-! ### Process-wide active-window counter (win32_window.cpp, lines 36, 174-185)

`g_active_window_count` is touched by exactly two member functions:
`Win32Window::Win32Window` (line 176, `++g_active_window_count`) and
`~Win32Window` (line 182, `--g_active_window_count`).  `Destroy` (line 420)
and, through it, `Create` and the `WM_DESTROY` handler only read it. -/

/-- The operations of the source that hold `g_window_count_mutex` or call one
that does.  `construct` is the constructor, `destruct` the destructor;
`destroyCall`, `wmDestroy` and `createCall` read the counter but never write it. -/
inductive CounterOp where
  | construct
  | destruct
  | destroyCall
  | wmDestroy
  | createCall
deriving DecidableEq, Repr

/-- Effect of each operation on `g_active_window_count`, read off the source:
only the constructor increments and only the destructor decrements. -/
def counterStep (c : Int) : CounterOp → Int
  | CounterOp.construct => c + 1
  | CounterOp.destruct => c - 1
  | CounterOp.destroyCall => c
  | CounterOp.wmDestroy => c
  | CounterOp.createCall => c

/-- `g_active_window_count` after a sequence of operations, starting from its
static initialiser `0` (line 36). -/
def counterRun (ops : List CounterOp) : Int :=
  ops.foldl counterStep 0

/-- Number of live instances after a sequence of operations: constructions
minus destructions. -/
def liveInstances (ops : List CounterOp) : Int :=
  (ops.count CounterOp.construct : Int) - (ops.count CounterOp.destruct : Int)

/-! ### TrayController (no tray code is present under src/) -/

/-- Modelled from the spec: the repository's tray controller (spec section 4.6,
`TrayController`) is not under `src/`; only the window shell sources are.  Spec:
state machine `Absent → Added → Absent`; invariant: at most one icon per window. -/
structure TrayState where
  added : Bool
deriving DecidableEq, Repr

/-- Modelled from the spec: `Add()`: no-op if already added or if the handle is
invalid; otherwise registers one notification-area icon and sets state to Added. -/
def trayAdd (handle_valid : Bool) (s : TrayState) : TrayState :=
  if handle_valid = false ∨ s.added then s else ⟨true⟩

/-- Modelled from the spec: `Remove()`: no-op if not added; otherwise
unregisters the icon and sets state to Absent. -/
def trayRemove (s : TrayState) : TrayState :=
  if s.added then ⟨false⟩ else s

/-- Number of tray icons registered for the window in a given tray state. -/
def trayCount (s : TrayState) : Nat :=
  if s.added then 1 else 0

/-! ### Size limits (win32_window.cpp, lines 655-681; win32_window.h, lines 144-145) -/

/-- Win32Window::SetMinimumSize (lines 655-667): clamps the argument to be
nonnegative and raises the maximum to keep it at least the minimum. -/
def setMinimumSize (size : Size) (st : Size × Size) : Size × Size :=
  let minimum_size : Size := ⟨max 0 size.width, max 0 size.height⟩
  let maximum_size : Size :=
    ⟨if minimum_size.width > st.2.width then minimum_size.width else st.2.width,
     if minimum_size.height > st.2.height then minimum_size.height else st.2.height⟩
  (minimum_size, maximum_size)

/-- Win32Window::SetMaximumSize (lines 669-681): clamps the argument to be at
least one and lowers the minimum to keep it at most the maximum. -/
def setMaximumSize (size : Size) (st : Size × Size) : Size × Size :=
  let maximum_size : Size := ⟨max 1 size.width, max 1 size.height⟩
  let minimum_size : Size :=
    ⟨if maximum_size.width < st.1.width then maximum_size.width else st.1.width,
     if maximum_size.height < st.1.height then maximum_size.height else st.1.height⟩
  (minimum_size, maximum_size)

/-- A call to one of the two size-limit setters, with its (arbitrary) argument. -/
inductive SizeLimitOp where
  | setMin (s : Size)
  | setMax (s : Size)
deriving DecidableEq, Repr

/-- Dispatch of a size-limit setter call on the (minimum, maximum) pair. -/
def sizeLimitStep (st : Size × Size) : SizeLimitOp → Size × Size
  | SizeLimitOp.setMin s => setMinimumSize s st
  | SizeLimitOp.setMax s => setMaximumSize s st

/-- Member initialisers `minimum_size_{0, 0}` and `maximum_size_{0xFFFF, 0xFFFF}`
(win32_window.h, lines 144-145). -/
def initialLimits : Size × Size :=
  (⟨0, 0⟩, ⟨0xFFFF, 0xFFFF⟩)

/-- The size-limit invariant claimed for the stored pair. -/
def sizeLimitsInv (st : Size × Size) : Prop :=
  0 ≤ st.1.width ∧ 0 ≤ st.1.height ∧ 1 ≤ st.2.width ∧ 1 ≤ st.2.height ∧
    st.1.width ≤ st.2.width ∧ st.1.height ≤ st.2.height

theorem sizeLimitStep_preserves (st : Size × Size) (op : SizeLimitOp)
    (h : sizeLimitsInv st) : sizeLimitsInv (sizeLimitStep st op) := by
  obtain ⟨h1, h2, h3, h4, h5, h6⟩ := h
  cases op with
  | setMin s =>
      simp only [sizeLimitStep, setMinimumSize, sizeLimitsInv]
      constructor
      · exact le_max_left 0 s.width
      constructor
      · exact le_max_left 0 s.height
      constructor
      · split <;> omega
      constructor
      · split <;> omega
      constructor
      · split <;> omega
      · split <;> omega
  | setMax s =>
      simp only [sizeLimitStep, setMaximumSize, sizeLimitsInv]
      constructor
      · split <;> omega
      constructor
      · split <;> omega
      constructor
      · exact le_max_left 1 s.width
      constructor
      · exact le_max_left 1 s.height
      constructor
      · split <;> omega
      · split <;> omega

theorem sizeLimits_foldl_inv (ops : List SizeLimitOp) (st : Size × Size)
    (h : sizeLimitsInv st) : sizeLimitsInv (ops.foldl sizeLimitStep st) := by
  induction ops generalizing st with
  | nil => exact h
  | cons op rest ih => exact ih _ (sizeLimitStep_preserves st op h)

/-- C10: For every window instance and every sequence of SetMinimumSize and
SetMaximumSize calls with arbitrary (including negative) arguments, the stored
size limits satisfy `minimum.width ≥ 0`, `minimum.height ≥ 0`,
`maximum.width ≥ 1`, `maximum.height ≥ 1`, `minimum.width ≤ maximum.width`
and `minimum.height ≤ maximum.height`. -/
theorem c10_size_limits_invariant (ops : List SizeLimitOp) :
    sizeLimitsInv (ops.foldl sizeLimitStep initialLimits) := by
  apply sizeLimits_foldl_inv
  simp [sizeLimitsInv, initialLimits]

theorem counterRun_foldl (ops : List CounterOp) (c : Int) :
    ops.foldl counterStep c =
      c + ((ops.count CounterOp.construct : Int) - (ops.count CounterOp.destruct : Int)) := by
  induction ops generalizing c with
  | nil => simp
  | cons op rest ih =>
      cases op <;>
        simp [List.count_cons, counterStep, ih, List.foldl_cons] <;> omega

/-- C3: For every sequence of window-instance constructions and destructions
(and of the other operations that touch the counter's mutex), the process-wide
active-window counter equals the number of live instances: it is incremented
exactly once per constructor call, decremented exactly once per destructor
call, and changed by no other operation. -/
theorem c3_counter_equals_live_instances (ops : List CounterOp) :
    counterRun ops = liveInstances ops := by
  simp [counterRun, liveInstances, counterRun_foldl]

theorem trayAdd_added (s : TrayState) : (trayAdd true s).added = true := by
  by_cases h : s.added <;> simp [trayAdd, h]

theorem trayAdd_iterate_added (n : Nat) (s : TrayState) (h : s.added = true) :
    ((trayAdd true)^[n] s).added = true := by
  induction n generalizing s with
  | zero => exact h
  | succ n ih =>
      rw [Function.iterate_succ_apply]
      exact ih _ (trayAdd_added s)

theorem trayRemove_added (s : TrayState) : (trayRemove s).added = false := by
  by_cases h : s.added <;> simp [trayRemove, h]

theorem trayRemove_iterate_added (m : Nat) (s : TrayState) (h : s.added = false) :
    (trayRemove^[m] s).added = false := by
  induction m generalizing s with
  | zero => exact h
  | succ m ih =>
      rw [Function.iterate_succ_apply]
      exact ih _ (trayRemove_added s)

/-- C9: For every window and every sequence of tray operations: one Add (with a
valid handle) followed by any number of additional Add calls leaves exactly one
tray icon registered, one Remove followed by any number of additional Remove
calls leaves zero, and at most one tray icon exists per window at any time. -/
theorem c9_tray_idempotent (s t : TrayState) (n m : Nat) :
    trayCount ((trayAdd true)^[n] (trayAdd true s)) = 1 ∧
      trayCount (trayRemove^[m] (trayRemove t)) = 0 ∧
      trayCount s ≤ 1 := by
  refine ⟨?_, ?_, ?_⟩
  · have h := trayAdd_iterate_added n (trayAdd true s) (trayAdd_added s)
    simp [trayCount, h]
  · have h := trayRemove_iterate_added m (trayRemove t) (trayRemove_added t)
    simp [trayCount, h]
  · by_cases h : s.added <;> simp [trayCount, h]

/-! ### DPI resolution (win32_window.cpp, lines 40-77, 270-287, 466-487) -/

/-- Outcomes of the OS monitor/DPI queries made during `Create`. -/
structure DpiEnv where
  monitor_found : Bool
  flutter_dpi : Nat
  get_dpi_for_window_available : Bool
  get_dpi_for_window_result : Nat
  dc_available : Bool
  device_caps_dpi : Int
deriving DecidableEq, Repr

/-- GetWindowDpiSafe (lines 50-77): prefer `GetDpiForWindow` when the entry
point is available, the handle is non-null and the result is positive; else a
device-context `GetDeviceCaps` query when it yields a positive value; else 96. -/
def getWindowDpiSafe (env : DpiEnv) (hwnd : Option Nat) : Nat :=
  if env.get_dpi_for_window_available ∧ hwnd.isSome ∧ 0 < env.get_dpi_for_window_result then
    env.get_dpi_for_window_result
  else if env.dc_available ∧ 0 < env.device_caps_dpi then
    env.device_caps_dpi.toNat
  else 96

/-- The DPI value computed by `Create` (lines 276-284): 96 unless a monitor is
found, in which case `FlutterDesktopGetDpiForMonitor`; on a zero result fall
back to `GetWindowDpiSafe(nullptr)`. -/
def createDpi (env : DpiEnv) : Nat :=
  let dpi := if env.monitor_found then env.flutter_dpi else 96
  if dpi = 0 then getWindowDpiSafe env none else dpi

/-- The stored `dpi_scale_` after `Create` (line 286): `dpi / 96.0f`. -/
def createScale (env : DpiEnv) : ℚ :=
  (createDpi env : ℚ) / 96

/-- The stored `dpi_scale_` after a WM_DPICHANGED message (lines 474-477):
updated to `HIWORD(wparam) / 96.0f` only when that word is positive, otherwise
kept unchanged. -/
def dpiChangedScale (old : ℚ) (hiword : Nat) : ℚ :=
  if 0 < hiword then (hiword : ℚ) / 96 else old

theorem createDpi_pos (env : DpiEnv) : 0 < createDpi env := by
  simp only [createDpi, getWindowDpiSafe, Option.isSome_none, Bool.false_eq_true,
    false_and, and_false, if_false]
  repeat' split
  all_goals omega

/-- C4: For every window instance and every outcome of the monitor and DPI
queries, the stored DPI scale is strictly greater than zero (and, being
`dpi / 96` with `dpi ≤ 65535`, finite) after `Create` and after every
WM_DPICHANGED message; when every query fails it equals exactly 1 (96 DPI). -/
theorem c4_dpi_scale_positive (env : DpiEnv) (old : ℚ) (hiword : Nat)
    (hold : 0 < old) :
    0 < createScale env ∧ 0 < dpiChangedScale old hiword ∧
      ((env.monitor_found = false ∨
          (env.flutter_dpi = 0 ∧
            (env.dc_available = false ∨ env.device_caps_dpi ≤ 0))) →
        createScale env = 1) := by
  refine ⟨?_, ?_, ?_⟩
  · have h := createDpi_pos env
    apply div_pos _ (by norm_num)
    exact_mod_cast h
  · unfold dpiChangedScale
    split
    · apply div_pos _ (by norm_num)
      exact_mod_cast (by omega : (0:Nat) < hiword)
    · exact hold
  · intro hfail
    have hdpi : createDpi env = 96 := by
      rcases hfail with hmon | ⟨hflut, hdc⟩
      · simp [createDpi, hmon, getWindowDpiSafe]
      · by_cases hmon : env.monitor_found
        · have hdc' : ¬(env.dc_available = true ∧ 0 < env.device_caps_dpi) := by
            rcases hdc with h | h
            · rintro ⟨h1, h2⟩
              rw [h] at h1
              exact Bool.false_ne_true h1
            · rintro ⟨h1, h2⟩
              omega
          simp [createDpi, hmon, hflut, getWindowDpiSafe, hdc']
        · simp [createDpi, hmon, getWindowDpiSafe]
    rw [createScale, hdpi]
    norm_num

/-- An environment in which the monitor is found but every DPI query fails. -/
def dpiEnvAllFail : DpiEnv :=
  { monitor_found := true, flutter_dpi := 0, get_dpi_for_window_available := true,
    get_dpi_for_window_result := 0, dc_available := false, device_caps_dpi := 0 }

theorem c4_dpi_scale_positive_witness :
    0 < createScale dpiEnvAllFail ∧ 0 < dpiChangedScale 2 0 ∧
      ((dpiEnvAllFail.monitor_found = false ∨
          (dpiEnvAllFail.flutter_dpi = 0 ∧
            (dpiEnvAllFail.dc_available = false ∨ dpiEnvAllFail.device_caps_dpi ≤ 0))) →
        createScale dpiEnvAllFail = 1) :=
  c4_dpi_scale_positive dpiEnvAllFail 2 0 (by norm_num)

/-! ### Instance and process state, Destroy, and the WM_DESTROY handler
(win32_window.cpp, lines 408-424, 455-461; registrar lines 159-165) -/

/-- The `Win32Window` member fields the embedded operations read or write. -/
structure InstState where
  window_handle : Option Nat
  quit_on_close : Bool
  dpi_scale : ℚ
  current_dpi : Nat
  enable_rounded_corners : Bool
deriving DecidableEq, Repr

/-- The process-wide state: `g_active_window_count` (line 36) and the
registrar's `class_registered_` flag (line 169). -/
structure ProcState where
  active_window_count : Int
  class_registered : Bool
deriving DecidableEq, Repr

/-- Result of an operation on an instance: new instance state, new process
state, trace of side effects. -/
structure DestroyResult where
  inst : InstState
  proc : ProcState
  actions : List WAction
deriving DecidableEq, Repr

/-- Win32Window::Destroy (lines 408-424): invoke `OnDestroy()`; if the handle
is non-null, save placement, call `DestroyWindow` and null the handle; then
under the counter mutex, unregister the window class if the counter is zero
(`UnregisterWindowClass`, lines 159-165, itself a no-op when not registered). -/
def destroyRun (inst : InstState) (proc : ProcState) : DestroyResult :=
  { inst := { inst with window_handle := none },
    proc :=
      if proc.active_window_count = 0 then { proc with class_registered := false }
      else proc,
    actions :=
      WAction.onDestroyHook ::
        (if inst.window_handle.isSome then
          [WAction.savePlacementCall, WAction.destroyWindowCall]
        else []) }

/-- The WM_DESTROY arm of Win32Window::MessageHandler (lines 455-461): null the
handle, call `Destroy()`, and post a quit message when `quit_on_close_`. -/
def wmDestroyHandler (inst : InstState) (proc : ProcState) : DestroyResult :=
  let r := destroyRun { inst with window_handle := none } proc
  { r with
    actions := r.actions ++ (if inst.quit_on_close then [WAction.postQuitCall] else []) }

/-- A live instance with a non-null handle, used in the C2 theorems. -/
def instC2 : InstState :=
  { window_handle := some 7, quit_on_close := false, dpi_scale := 1,
    current_dpi := 96, enable_rounded_corners := true }

/-- A process state with one live window and the class registered. -/
def procC2 : ProcState := { active_window_count := 1, class_registered := true }

/-- C2 counterexample: handling the destroy notification for a window in the
Created state with active-window counter 1 leaves the counter at 1; it is not
decremented there (the decrement is in the destructor, line 182), so the claim
that WM_DESTROY handling decrements the counter is false. -/
theorem c2_counterexample :
    (wmDestroyHandler instC2 procC2).proc.active_window_count = 1 ∧
      ¬ (wmDestroyHandler instC2 procC2).proc.active_window_count =
          procC2.active_window_count - 1 := by
  constructor
  · rfl
  · decide

/-- C2 (amended): for every window in the Created state, handling of the OS
destroy notification releases the native handle (handle becomes null) and
invokes the OnDestroy hook; it leaves the process-wide active-window counter
unchanged (the decrement happens in the destructor instead), and it unregisters
the window class exactly when the counter has already reached zero. -/
theorem c2_wm_destroy_amended (inst : InstState) (proc : ProcState) :
    (wmDestroyHandler inst proc).inst.window_handle = none ∧
      WAction.onDestroyHook ∈ (wmDestroyHandler inst proc).actions ∧
      (wmDestroyHandler inst proc).proc.active_window_count =
        proc.active_window_count ∧
      (proc.active_window_count = 0 →
        (wmDestroyHandler inst proc).proc.class_registered = false) ∧
      (proc.active_window_count ≠ 0 →
        (wmDestroyHandler inst proc).proc.class_registered = proc.class_registered) := by
  refine ⟨rfl, ?_, ?_, ?_, ?_⟩
  · simp [wmDestroyHandler, destroyRun]
  · simp only [wmDestroyHandler, destroyRun]
    split <;> rfl
  · intro h
    simp [wmDestroyHandler, destroyRun, h]
  · intro h
    simp [wmDestroyHandler, destroyRun, h]

/-- A process state in which the last destructor has already run. -/
def procC2zero : ProcState := { active_window_count := 0, class_registered := true }

theorem c2_wm_destroy_amended_witness :
    (wmDestroyHandler instC2 procC2zero).proc.class_registered = false :=
  (c2_wm_destroy_amended instC2 procC2zero).2.2.2.1 rfl

/-! ### Rounded corners (win32_window.cpp, lines 346-401) -/

/-- Outcomes of the OS calls made by `ApplyRoundedCorners`. -/
structure ShapeEnv where
  composition_enabled : Bool
  dwm_set_attr_available : Bool
  dwm_attr_ok : Bool
  region_created : Bool
  set_rgn_ok : Bool
deriving DecidableEq, Repr

/-- Win32Window::ApplyRoundedCorners (lines 346-401): return immediately on an
invalid handle or non-positive dimensions; when DWM composition is enabled and
`DwmSetWindowAttribute` loads, try the native corner attribute and stop if it
succeeds; otherwise create a round-rect region of size `(width+1, height+1)`
with corner diameter `safe_radius * 2`, install it with `SetWindowRgn`, and
delete it (`DeleteObject`) only when installation fails, since on success the
OS takes ownership. -/
def applyRoundedCorners (env : ShapeEnv) (hwnd : Option Nat)
    (width height corner_radius : Int) : List WAction :=
  if hwnd = none ∨ width ≤ 0 ∨ height ≤ 0 then []
  else
    let safe_radius := min corner_radius (min (width.tdiv 2) (height.tdiv 2))
    let dwm_tried := env.composition_enabled && env.dwm_set_attr_available
    let fallback :=
      WAction.createRoundRectRgnCall (width + 1) (height + 1)
          (safe_radius * 2) (safe_radius * 2) ::
        (if env.region_created then
          WAction.setWindowRgnCall ::
            (if env.set_rgn_ok then [] else [WAction.deleteObjectCall])
        else [])
    (if dwm_tried then [WAction.dwmSetCornerCall] else []) ++
      (if dwm_tried && env.dwm_attr_ok then [] else fallback)

/-- C6: For every call to the rounded-corner fallback path (composition
disabled, the attribute entry point unavailable, or the native corner
attribute rejected) with a valid handle and positive width and height, a
round-rect clip region creation sized `width+1` by `height+1` is requested
and, when it yields a region, that region is installed as the window region;
if installation fails the region object is explicitly released, and if it
succeeds it is not released by the caller. -/
theorem c6_rounded_fallback (env : ShapeEnv) (h : Nat)
    (width height corner_radius : Int)
    (hw : 0 < width) (hh : 0 < height)
    (hfb : env.composition_enabled = false ∨ env.dwm_set_attr_available = false ∨
      env.dwm_attr_ok = false) :
    WAction.createRoundRectRgnCall (width + 1) (height + 1)
        (min corner_radius (min (width.tdiv 2) (height.tdiv 2)) * 2)
        (min corner_radius (min (width.tdiv 2) (height.tdiv 2)) * 2) ∈
      applyRoundedCorners env (some h) width height corner_radius ∧
      (env.region_created = true →
        WAction.setWindowRgnCall ∈
          applyRoundedCorners env (some h) width height corner_radius) ∧
      (env.region_created = true → env.set_rgn_ok = false →
        WAction.deleteObjectCall ∈
          applyRoundedCorners env (some h) width height corner_radius) ∧
      (env.set_rgn_ok = true →
        WAction.deleteObjectCall ∉
          applyRoundedCorners env (some h) width height corner_radius) := by
  have hvalid : ¬(some h = (none : Option Nat) ∨ width ≤ 0 ∨ height ≤ 0) := by
    push_neg
    exact ⟨Option.some_ne_none h, by omega, by omega⟩
  have hdwm : ((env.composition_enabled && env.dwm_set_attr_available) && env.dwm_attr_ok)
      = false := by
    rcases hfb with h1 | h1 | h1 <;> simp [h1]
  refine ⟨?_, ?_, ?_, ?_⟩
  · simp only [applyRoundedCorners, if_neg hvalid, hdwm, Bool.false_eq_true, if_false]
    split <;> simp
  · intro hr
    simp only [applyRoundedCorners, if_neg hvalid, hdwm, Bool.false_eq_true, if_false, hr]
    split <;> simp
  · intro hr hsr
    simp only [applyRoundedCorners, if_neg hvalid, hdwm, Bool.false_eq_true, if_false,
      hr, hsr]
    split <;> simp
  · intro hsr
    simp only [applyRoundedCorners, if_neg hvalid, hdwm, Bool.false_eq_true, if_false, hsr]
    split <;> split <;> simp_all

/-- A shape environment for the fallback path: composition disabled, region
creation succeeding, installation succeeding. -/
def shapeEnvFallback : ShapeEnv :=
  { composition_enabled := false, dwm_set_attr_available := false, dwm_attr_ok := false,
    region_created := true, set_rgn_ok := true }

theorem c6_rounded_fallback_witness :
    WAction.createRoundRectRgnCall 801 601
        (min 10 (min ((800:Int).tdiv 2) ((600:Int).tdiv 2)) * 2)
        (min 10 (min ((800:Int).tdiv 2) ((600:Int).tdiv 2)) * 2) ∈
      applyRoundedCorners shapeEnvFallback (some 7) 800 600 10 ∧
      (shapeEnvFallback.region_created = true →
        WAction.setWindowRgnCall ∈
          applyRoundedCorners shapeEnvFallback (some 7) 800 600 10) ∧
      (shapeEnvFallback.region_created = true → shapeEnvFallback.set_rgn_ok = false →
        WAction.deleteObjectCall ∈
          applyRoundedCorners shapeEnvFallback (some 7) 800 600 10) ∧
      (shapeEnvFallback.set_rgn_ok = true →
        WAction.deleteObjectCall ∉
          applyRoundedCorners shapeEnvFallback (some 7) 800 600 10) :=
  c6_rounded_fallback shapeEnvFallback 7 800 600 10 (by norm_num) (by norm_num)
    (Or.inl rfl)

/-! ### The WM_SIZE arm of the message handler (win32_window.cpp, lines 489-531) -/

/-- The window-state word of a WM_SIZE message (`wparam`). -/
inductive SizeKind where
  | minimized
  | restored
  | maximized
  | otherSize
deriving DecidableEq, Repr

/-- OS query outcomes available to the WM_SIZE arm. -/
structure SizeEnv where
  client_w : Int
  client_h : Int
  has_child : Bool
  get_window_rect_ok : Bool
  win_w : Int
  win_h : Int
deriving DecidableEq, Repr

/-- The WM_SIZE arm of Win32Window::MessageHandler (lines 489-531): return at
once when minimized or when the client area is degenerate; move the child
content; on restore clear `is_fullscreen_` and re-apply rounded corners from
the current outer rectangle when enabled and the rectangle query succeeds with
positive dimensions; on maximize clear `is_fullscreen_` and remove the window
region; finally invoke the resize hook.  Returns the action trace and the new
`is_fullscreen_` flag. -/
def wmSizeHandler (env : SizeEnv) (kind : SizeKind)
    (enable_rounded_corners is_fullscreen : Bool) : List WAction × Bool :=
  if kind = SizeKind.minimized then ([], is_fullscreen)
  else if env.client_w ≤ 0 ∨ env.client_h ≤ 0 then ([], is_fullscreen)
  else
    let child :=
      if env.has_child then [WAction.moveChildCall env.client_w env.client_h] else []
    let sh :=
      if kind = SizeKind.restored then
        (if enable_rounded_corners = true ∧ env.get_window_rect_ok = true ∧
            0 < env.win_w ∧ 0 < env.win_h then
          [WAction.applyCornersCall env.win_w env.win_h]
        else [], false)
      else if kind = SizeKind.maximized then ([WAction.clearRegionCall], false)
      else ([], is_fullscreen)
    (child ++ sh.1 ++ [WAction.onResizeHook env.client_w env.client_h], sh.2)

/-- A WM_SIZE environment with a degenerate (zero-sized) client area. -/
def sizeEnvDegenerate : SizeEnv :=
  { client_w := 0, client_h := 0, has_child := false, get_window_rect_ok := true,
    win_w := 800, win_h := 600 }

/-- C7 counterexample: a size-change message reporting the maximized state, with
a zero-sized client area, performs no action at all — in particular the shaping
region is not cleared, contradicting the claim that it is cleared for every
maximizing size-change message. -/
theorem c7_counterexample :
    WAction.clearRegionCall ∉
      (wmSizeHandler sizeEnvDegenerate SizeKind.maximized true false).1 := by
  decide

/-- C7 (amended): for every size-change message whose client area has positive
width and height: if the new state is maximized, the window's shaping region
is cleared; if the new state is restored, rounded corners are enabled, and the
outer-rectangle query succeeds with positive dimensions, the rounded shape is
re-applied using the window's current outer rectangle. -/
theorem c7_wm_size_shape (env : SizeEnv) (kind : SizeKind)
    (erc fs : Bool) (hw : 0 < env.client_w) (hh : 0 < env.client_h) :
    (kind = SizeKind.maximized →
      WAction.clearRegionCall ∈ (wmSizeHandler env kind erc fs).1) ∧
      (kind = SizeKind.restored → erc = true → env.get_window_rect_ok = true →
        0 < env.win_w → 0 < env.win_h →
        WAction.applyCornersCall env.win_w env.win_h ∈
          (wmSizeHandler env kind erc fs).1) := by
  have hc : ¬(env.client_w ≤ 0 ∨ env.client_h ≤ 0) := by omega
  constructor
  · rintro rfl
    simp only [wmSizeHandler, reduceCtorEq, if_false, if_neg hc, if_true]
    by_cases hch : env.has_child <;> simp [hch]
  · rintro rfl hrc hrect hww hwh
    simp only [wmSizeHandler, reduceCtorEq, if_false, if_neg hc]
    have : erc = true ∧ env.get_window_rect_ok = true ∧ 0 < env.win_w ∧ 0 < env.win_h :=
      ⟨hrc, hrect, hww, hwh⟩
    simp only [if_pos this, if_true]
    by_cases hch : env.has_child <;> simp [hch]

/-- A WM_SIZE environment with a healthy client area and outer rectangle. -/
def sizeEnvOk : SizeEnv :=
  { client_w := 784, client_h := 561, has_child := true, get_window_rect_ok := true,
    win_w := 800, win_h := 600 }

theorem c7_wm_size_shape_witness :
    WAction.clearRegionCall ∈
      (wmSizeHandler sizeEnvOk SizeKind.maximized true false).1 :=
  (c7_wm_size_shape sizeEnvOk SizeKind.maximized true false (by decide) (by decide)).1 rfl

/-! ### Single-instance search and activation (win32_window.cpp, lines 187-251) -/

/-- The window class name `kWindowClassName` (line 28). -/
def kWindowClassName : List Char := "FLUTTER_RUNNER_WIN32_WINDOW".toList

/-- ShowWindow command SW_SHOWNORMAL. -/
def SW_SHOWNORMAL : Nat := 1

/-- ShowWindow command SW_SHOWMINIMIZED, the placement value tested at line 218. -/
def SW_SHOWMINIMIZED : Nat := 2

/-- ShowWindow command SW_RESTORE, issued at line 219. -/
def SW_RESTORE : Nat := 9

/-- A top-level window visible to EnumWindows, with its class name and title
(wide strings modelled as character lists). -/
structure OSWindow where
  className : List Char
  title : List Char
deriving DecidableEq, Repr

/-- The EnumWindows callback test (lines 196-212): the window matches when its
class name is `kWindowClassName`, `GetWindowText` into a 256-slot buffer copies
a positive number of characters (the title truncated to 255 characters is
nonempty), and the sought title equals that truncated text. -/
def matchesTitle (title : List Char) (w : OSWindow) : Bool :=
  decide (w.className = kWindowClassName ∧ (w.title.take 255).length ≠ 0 ∧
    title = w.title.take 255)

/-- The window found by the EnumWindows loop: the first matching one, if any
(the callback stops enumeration by returning FALSE at the first match). -/
def findExisting (windows : List OSWindow) (title : List Char) : Option OSWindow :=
  windows.find? (matchesTitle title)

/-- OS responses seen while activating the found window (lines 214-245). -/
structure ActivateEnv where
  placement_ok : Bool
  show_cmd : Nat
  foreground_thread : Option Nat
  current_thread : Nat
  attach_ok : Bool
deriving DecidableEq, Repr

/-- Activation of the found window (lines 214-245): `ShowWindow(SW_RESTORE)`
only when the placement query succeeds and reports SW_SHOWMINIMIZED; then
foreground forcing: when a foreground window exists on a different thread,
attach thread input around `SetForegroundWindow` (with a `SetWindowPos` +
`SetForegroundWindow` fallback when the attach fails); otherwise plain
`SetForegroundWindow`. -/
def activateActions (env : ActivateEnv) : List WAction :=
  (if env.placement_ok = true ∧ env.show_cmd = SW_SHOWMINIMIZED then
    [WAction.showWindowCmd SW_RESTORE]
  else []) ++
    (match env.foreground_thread with
     | some t =>
        if t ≠ env.current_thread then
          if env.attach_ok then
            [WAction.attachThreadInputCall true, WAction.setForegroundWindowCall,
              WAction.attachThreadInputCall false]
          else
            [WAction.setWindowPosTopShowCall, WAction.setForegroundWindowCall]
        else [WAction.setForegroundWindowCall]
     | none => [WAction.setForegroundWindowCall])

/-- Win32Window::SendAppLinkToInstance (lines 187-251): true together with the
activation side effects when a matching window exists, false otherwise. -/
def sendAppLinkToInstance (windows : List OSWindow) (title : List Char)
    (aenv : ActivateEnv) : Bool × List WAction :=
  match findExisting windows title with
  | some _ => (true, activateActions aenv)
  | none => (false, [])

theorem mem_activate_foreground (aenv : ActivateEnv) :
    WAction.setForegroundWindowCall ∈ activateActions aenv := by
  unfold activateActions
  rcases hft : aenv.foreground_thread with _ | t
  · by_cases hp : aenv.placement_ok = true ∧ aenv.show_cmd = SW_SHOWMINIMIZED <;>
      simp [hp]
  · by_cases hne : t = aenv.current_thread <;>
      by_cases hao : aenv.attach_ok <;>
        by_cases hp : aenv.placement_ok = true ∧ aenv.show_cmd = SW_SHOWMINIMIZED <;>
          simp [hp, hne, hao]

theorem mem_activate_attach (aenv : ActivateEnv) :
    WAction.attachThreadInputCall true ∈ activateActions aenv ↔
      (∃ t, aenv.foreground_thread = some t ∧ t ≠ aenv.current_thread ∧
        aenv.attach_ok = true) := by
  unfold activateActions
  rcases hft : aenv.foreground_thread with _ | t
  · by_cases hp : aenv.placement_ok = true ∧ aenv.show_cmd = SW_SHOWMINIMIZED <;>
      simp [hp]
  · by_cases hne : t = aenv.current_thread
    · by_cases hp : aenv.placement_ok = true ∧ aenv.show_cmd = SW_SHOWMINIMIZED <;>
        simp [hp, hne]
    · by_cases hao : aenv.attach_ok <;>
        by_cases hp : aenv.placement_ok = true ∧ aenv.show_cmd = SW_SHOWMINIMIZED <;>
          simp [hp, hne, hao]

theorem showWindowCmd_not_mem_activate (aenv : ActivateEnv)
    (hp : ¬(aenv.placement_ok = true ∧ aenv.show_cmd = SW_SHOWMINIMIZED)) (cmd : Nat) :
    WAction.showWindowCmd cmd ∉ activateActions aenv := by
  unfold activateActions
  rcases hft : aenv.foreground_thread with _ | t
  · simp [hp]
  · by_cases hne : t = aenv.current_thread <;>
      by_cases hao : aenv.attach_ok <;> simp [hp, hne, hao]

/-- A top-level window of the runner class in the normal state. -/
def osWinFoo : OSWindow := { className := kWindowClassName, title := "Foo".toList }

/-- An activation environment whose placement query reports the normal state. -/
def aenvNormal : ActivateEnv :=
  { placement_ok := true, show_cmd := SW_SHOWNORMAL, foreground_thread := none,
    current_thread := 5, attach_ok := true }

/-- C8 counterexample: when the found window is neither minimized nor maximized
(its placement reports the normal show state), the search returns true but no
show command at all is issued — in particular the window is not "shown normal"
(no `ShowWindow(SW_SHOWNORMAL)` happens), contradicting the claim's "otherwise
it is shown normal". -/
theorem c8_counterexample :
    (sendAppLinkToInstance [osWinFoo] "Foo".toList aenvNormal).1 = true ∧
      WAction.showWindowCmd SW_SHOWNORMAL ∉
        (sendAppLinkToInstance [osWinFoo] "Foo".toList aenvNormal).2 := by
  decide

/-- C8 (amended): for every call to the single-instance search that finds an
existing window with the matching title: if the placement query succeeds and
reports the minimized state, the window is restored (no show command is issued
in any other state, so a maximized window stays maximized); it is forced to
the foreground, with thread-input attachment used exactly when a foreground
window exists on a thread different from the current one and the attach
succeeds; and the operation returns true. -/
theorem c8_activate_existing (windows : List OSWindow) (title : List Char)
    (aenv : ActivateEnv) (hfound : (findExisting windows title).isSome = true) :
    (sendAppLinkToInstance windows title aenv).1 = true ∧
      (aenv.placement_ok = true → aenv.show_cmd = SW_SHOWMINIMIZED →
        WAction.showWindowCmd SW_RESTORE ∈
          (sendAppLinkToInstance windows title aenv).2) ∧
      (¬(aenv.placement_ok = true ∧ aenv.show_cmd = SW_SHOWMINIMIZED) →
        ∀ cmd, WAction.showWindowCmd cmd ∉ (sendAppLinkToInstance windows title aenv).2) ∧
      WAction.setForegroundWindowCall ∈ (sendAppLinkToInstance windows title aenv).2 ∧
      (WAction.attachThreadInputCall true ∈ (sendAppLinkToInstance windows title aenv).2 ↔
        (∃ t, aenv.foreground_thread = some t ∧ t ≠ aenv.current_thread ∧
          aenv.attach_ok = true)) := by
  obtain ⟨w, hw⟩ := Option.isSome_iff_exists.mp hfound
  refine ⟨?_, ?_, ?_, ?_, ?_⟩
  · simp [sendAppLinkToInstance, hw]
  · intro hp hc
    simp only [sendAppLinkToInstance, hw]
    unfold activateActions
    simp [hp, hc]
  · intro hp cmd
    simp only [sendAppLinkToInstance, hw]
    exact showWindowCmd_not_mem_activate aenv hp cmd
  · simp only [sendAppLinkToInstance, hw]
    exact mem_activate_foreground aenv
  · simp only [sendAppLinkToInstance, hw]
    exact mem_activate_attach aenv

/-- An activation environment whose placement query reports minimized, with a
foreground window on another thread. -/
def aenvMin : ActivateEnv :=
  { placement_ok := true, show_cmd := SW_SHOWMINIMIZED, foreground_thread := some 3,
    current_thread := 5, attach_ok := true }

theorem c8_activate_existing_witness :
    (sendAppLinkToInstance [osWinFoo] "Foo".toList aenvMin).1 = true ∧
      WAction.showWindowCmd SW_RESTORE ∈
        (sendAppLinkToInstance [osWinFoo] "Foo".toList aenvMin).2 :=
  ⟨(c8_activate_existing [osWinFoo] "Foo".toList aenvMin (by decide)).1,
    (c8_activate_existing [osWinFoo] "Foo".toList aenvMin (by decide)).2.1 rfl rfl⟩

/-! ### Window creation (win32_window.cpp, lines 253-344) -/

/-- Truncation of a rational toward zero, the behaviour of the C
`static_cast<int>` at line 42. -/
def truncRat (q : ℚ) : Int := q.num.tdiv (q.den : Int)

/-- The Scale helper (lines 40-43): truncating multiply, substituting a factor
of 1.0 when the given factor is non-positive. -/
def scaleInt (source : Int) (scale_factor : ℚ) : Int :=
  truncRat ((source : ℚ) * (if scale_factor ≤ 0 then 1 else scale_factor))

/-- Outcomes of the OS calls made during `Create`. -/
structure CreateEnv where
  os_windows : List OSWindow
  activate : ActivateEnv
  register_ok : Bool
  dpi : DpiEnv
  adjust_ok : Bool
  frame_w : Int
  frame_h : Int
  create_window_ok : Bool
  new_handle : Nat
  on_create_ok : Bool
deriving DecidableEq, Repr

/-- Result of a `Create` call. -/
structure CreateResult where
  ok : Bool
  inst : InstState
  proc : ProcState
  actions : List WAction
deriving DecidableEq, Repr

/-- Win32Window::Create (lines 253-344): abort (returning false, with the
instance untouched) when `SendAppLinkToInstance` finds and activates an
existing instance; otherwise `Destroy()` any prior handle, fetch the window
class from the registrar (failing when registration fails and the class was
not already registered), resolve the DPI scale, adjust the requested client
rectangle by the non-client frame (modelled as additive frame extents,
`AdjustWindowRectEx` failure aborting), clamp both dimensions to at least 100,
create the native window (failure leaving the handle null), then apply rounded
corners when enabled, update the theme, restore placement, and return the
`OnCreate()` result. -/
def create (env : CreateEnv) (title : List Char) (origin : Point) (size : Size)
    (inst : InstState) (proc : ProcState) : CreateResult :=
  let s := sendAppLinkToInstance env.os_windows title env.activate
  if s.1 then { ok := false, inst := inst, proc := proc, actions := s.2 }
  else
    let d := destroyRun inst proc
    if d.proc.class_registered = false ∧ env.register_ok = false then
      { ok := false, inst := d.inst, proc := d.proc, actions := d.actions }
    else
      let proc1 : ProcState := { d.proc with class_registered := true }
      let dpi := createDpi env.dpi
      let inst1 : InstState :=
        { d.inst with dpi_scale := (dpi : ℚ) / 96, current_dpi := dpi }
      if env.adjust_ok = false then
        { ok := false, inst := inst1, proc := proc1, actions := d.actions }
      else
        let window_width := max (scaleInt size.width inst1.dpi_scale + env.frame_w) 100
        let window_height := max (scaleInt size.height inst1.dpi_scale + env.frame_h) 100
        if env.create_window_ok = false then
          { ok := false, inst := { inst1 with window_handle := none },
            proc := proc1, actions := d.actions }
        else
          let inst2 : InstState := { inst1 with window_handle := some env.new_handle }
          { ok := env.on_create_ok, inst := inst2, proc := proc1,
            actions := d.actions ++
              [WAction.createWindowCall (scaleInt origin.x inst1.dpi_scale)
                (scaleInt origin.y inst1.dpi_scale) window_width window_height] ++
              (if inst2.enable_rounded_corners then
                [WAction.applyCornersCall window_width window_height]
              else []) ++
              [WAction.updateThemeCall, WAction.restorePlacementCall] }

theorem destroyRun_handle (inst : InstState) (proc : ProcState) :
    (destroyRun inst proc).inst.window_handle = none := rfl

theorem destroyRun_registered_false (inst : InstState) (proc : ProcState)
    (h : proc.class_registered = false) :
    (destroyRun inst proc).proc.class_registered = false := by
  simp only [destroyRun]
  split <;> simp [h]

/-- C5: For every call to `Create` in which class registration fails for a
reason other than already-registered, or native window creation fails (and no
existing instance preempts the call), `Create` returns false and the instance
retains no partial state: its window handle is null after the failed call. -/
theorem c5_create_failure_clean (env : CreateEnv) (title : List Char)
    (origin : Point) (size : Size) (inst : InstState) (proc : ProcState)
    (hfind : findExisting env.os_windows title = none)
    (hfail : (proc.class_registered = false ∧ env.register_ok = false) ∨
      env.create_window_ok = false) :
    (create env title origin size inst proc).ok = false ∧
      (create env title origin size inst proc).inst.window_handle = none := by
  have hs1 : (sendAppLinkToInstance env.os_windows title env.activate).1 = false := by
    simp [sendAppLinkToInstance, hfind]
  simp only [create, hs1, Bool.false_eq_true, if_false]
  rcases hfail with ⟨hcr, hro⟩ | hcw
  · rw [if_pos ⟨destroyRun_registered_false inst proc hcr, hro⟩]
    exact ⟨rfl, rfl⟩
  · by_cases hrg : (destroyRun inst proc).proc.class_registered = false ∧
        env.register_ok = false
    · rw [if_pos hrg]
      exact ⟨rfl, rfl⟩
    · rw [if_neg hrg]
      by_cases hadj : env.adjust_ok = false
      · rw [if_pos hadj]
        exact ⟨rfl, rfl⟩
      · rw [if_neg hadj, if_pos hcw]
        exact ⟨rfl, rfl⟩

/-- An environment in which native window creation fails and everything
else succeeds, with no pre-existing instance. -/
def envCreateFails : CreateEnv :=
  { os_windows := [], activate := aenvNormal, register_ok := true,
    dpi := dpiEnvAllFail, adjust_ok := true, frame_w := 16, frame_h := 39,
    create_window_ok := false, new_handle := 42, on_create_ok := true }

/-- A freshly constructed instance: null handle, default member initialisers. -/
def instFresh : InstState :=
  { window_handle := none, quit_on_close := false, dpi_scale := 1,
    current_dpi := 96, enable_rounded_corners := true }

/-- A process state during a `Create` call: one live instance, class not yet
registered. -/
def procOne : ProcState := { active_window_count := 1, class_registered := false }

theorem c5_create_failure_clean_witness :
    (create envCreateFails "Foo".toList ⟨100, 100⟩ ⟨800, 600⟩ instFresh procOne).ok
        = false ∧
      (create envCreateFails "Foo".toList ⟨100, 100⟩ ⟨800, 600⟩
          instFresh procOne).inst.window_handle = none :=
  c5_create_failure_clean envCreateFails "Foo".toList ⟨100, 100⟩ ⟨800, 600⟩
    instFresh procOne (by decide) (Or.inr rfl)

/-- A pre-existing runner window whose title is the empty string. -/
def osWinEmpty : OSWindow := { className := kWindowClassName, title := [] }

/-- A DPI environment in which every query succeeds at 96 DPI. -/
def dpiEnv96 : DpiEnv :=
  { monitor_found := true, flutter_dpi := 96, get_dpi_for_window_available := true,
    get_dpi_for_window_result := 96, dc_available := true, device_caps_dpi := 96 }

/-- A creation environment in which a window of the same class with the empty
title already exists and every OS call succeeds. -/
def envEmptyTitle : CreateEnv :=
  { os_windows := [osWinEmpty], activate := aenvNormal, register_ok := true,
    dpi := dpiEnv96, adjust_ok := true, frame_w := 16, frame_h := 39,
    create_window_ok := true, new_handle := 42, on_create_ok := true }

/-- C1 counterexample: with an existing top-level window of the same window
class carrying exactly the same (empty) title, `Create` with the empty title
nevertheless returns true and creates a new native window (the handle becomes
non-null): the search skips windows whose `GetWindowText` copies zero
characters (line 203), so the single-instance check misses empty titles and
the claim is false for them. -/
theorem c1_counterexample :
    (create envEmptyTitle [] ⟨100, 100⟩ ⟨800, 600⟩ instFresh procOne).ok = true ∧
      (create envEmptyTitle [] ⟨100, 100⟩ ⟨800, 600⟩
          instFresh procOne).inst.window_handle = some 42 := by
  exact ⟨rfl, rfl⟩

/-- C1 (amended): for every window instance whose Create(title, origin, size)
is called while another top-level window of the same window class with exactly
the same title already exists, provided that title is nonempty and at most 255
characters long, `Create` returns false, does not create a native window (a
null handle stays null), and the existing window is activated (brought to the
foreground) instead. -/
theorem c1_single_instance (env : CreateEnv) (title : List Char) (origin : Point)
    (size : Size) (inst : InstState) (proc : ProcState) (w : OSWindow)
    (hmem : w ∈ env.os_windows) (hclass : w.className = kWindowClassName)
    (htitle : w.title = title) (hne : title ≠ []) (hlen : title.length ≤ 255)
    (hhandle : inst.window_handle = none) :
    (create env title origin size inst proc).ok = false ∧
      (create env title origin size inst proc).inst.window_handle = none ∧
      WAction.setForegroundWindowCall ∈ (create env title origin size inst proc).actions := by
  have htake : title.take 255 = title := List.take_of_length_le hlen
  have hmatch : matchesTitle title w = true := by
    simp only [matchesTitle, decide_eq_true_eq]
    refine ⟨hclass, ?_, ?_⟩
    · rw [htitle, htake]
      intro hzero
      exact hne (List.length_eq_zero.mp hzero)
    · rw [htitle, htake]
  have hfound : (findExisting env.os_windows title).isSome = true := by
    rw [findExisting, List.find?_isSome]
    exact ⟨w, hmem, hmatch⟩
  obtain ⟨w', hw'⟩ := Option.isSome_iff_exists.mp hfound
  have hs : sendAppLinkToInstance env.os_windows title env.activate =
      (true, activateActions env.activate) := by
    simp [sendAppLinkToInstance, hw']
  simp only [create, hs, if_true]
  exact ⟨trivial, hhandle, mem_activate_foreground env.activate⟩

/-- A creation environment in which a runner window titled Foo already exists. -/
def envFooExists : CreateEnv :=
  { os_windows := [osWinFoo], activate := aenvNormal, register_ok := true,
    dpi := dpiEnv96, adjust_ok := true, frame_w := 16, frame_h := 39,
    create_window_ok := true, new_handle := 42, on_create_ok := true }

theorem c1_single_instance_witness :
    (create envFooExists "Foo".toList ⟨100, 100⟩ ⟨800, 600⟩ instFresh procOne).ok
        = false ∧
      (create envFooExists "Foo".toList ⟨100, 100⟩ ⟨800, 600⟩
          instFresh procOne).inst.window_handle = none ∧
      WAction.setForegroundWindowCall ∈
        (create envFooExists "Foo".toList ⟨100, 100⟩ ⟨800, 600⟩
          instFresh procOne).actions :=
  c1_single_instance envFooExists "Foo".toList ⟨100, 100⟩ ⟨800, 600⟩ instFresh procOne
    osWinFoo (by decide) rfl rfl (by decide) (by decide) rfl
